import Mathlib

/-!
# lightningrpc: a typed client for a payment daemon's JSON-RPC socket

A shallow embedding of `lightningrpc/rpc.go`.

* The Go package keeps no state of its own besides the receiver
  `LightningRpc`; everything else it does is an effect on the outside world
  (dialing the Unix socket, issuing one request, closing the connection,
  writing debug log lines).  The outside world is a parameter: a `Transport`
  over an arbitrary state type `σ`, whose three steps may answer in any way.
* Every effect is recorded, in order, in the `World`: transport effects in
  `trace`, `log.Debugf` invocations in `log`.
* A method with pointer receiver `lr *LightningRpc` is a function that takes
  the receiver and the world and returns a `Ret`: the returned value, the
  returned `error` (`none` is Go's `nil`), the receiver after the call and
  the world after the call.
* The two libraries the code calls on the way (`jsonrpc2` on top of
  `net/rpc`, and `encoding/json` for the reply) are modelled as far as the
  code relies on them; the declarations of the reply structs, their field
  types and their `json` tags are taken from the source.
-/

namespace lightningrpc

/-! ## Values that cross the interface -/

/-- JSON documents. A number is kept as the literal the document holds: `nat n`
is the literal made of the decimal digits of `n` alone, `negInt n` the minus
sign followed by the digits of `n` (so `negInt 0` is the literal `-0`), and
`number` any literal with a fraction or an exponent, kept as text. -/
inductive Json where
  | null
  | bool (b : Bool)
  | nat (n : Nat)
  | negInt (n : Nat)
  | number (literal : String)
  | str (s : String)
  | arr (xs : List Json)
  | obj (kvs : List (String × Json))

/-- Go `error` values that can reach a caller of this package. `none : Option Err`
is the `nil` error.

* `dial`: the connection could not be opened;
* `remote`: the error the client reports for a JSON-RPC error object
  (code, message, optional data);
* `client`: any other failure of the client library during a call
  (write or read failure, connection shut down, request not encodable);
* `unmarshalType`: `*json.UnmarshalTypeError`, with its fields `Value` and
  `Type` (the offset and the struct and field it names are not represented);
* `readingBody`: the error `net/rpc` reports when the result does not decode;
* `withMessage`: the result of `errors.Wrap(cause, msg)` of `github.com/pkg/errors`
  (the recorded call stack is not represented). -/
inductive Err where
  | dial (msg : String)
  | remote (code : Int) (message : String) (data : Option Json)
  | client (msg : String)
  | unmarshalType (value : String) (goType : String)
  | readingBody (cause : Err)
  | withMessage (cause : Err) (msg : String)

/-- The function `errors.Wrap`: `nil` stays `nil`, any other error is annotated with
the message. -/
def errorsWrap : Option Err → String → Option Err
  | none, _ => none
  | some err, message => some (Err.withMessage err message)

/-- A Go `float32`, carried as its IEEE-754 bit pattern: the package only passes
the value on. -/
structure GoFloat32 where
  bits : Nat
deriving DecidableEq

/-- A Go slice `[]T`: the elements in view (index below the length), and the
elements its backing array still holds beyond the length, which a later
extension of the slice brings back into view (`spare`; elements of the
backing array that were never written are zero values and are not listed).
A nil slice and an empty slice are not told apart. -/
structure Slice (α : Type) where
  elems : List α := []
  spare : List α := []
deriving DecidableEq

/-- The Go type `Empty struct{}` of the source. -/
structure Empty where
deriving DecidableEq

/-- The Go type `NewAddressResponse`. -/
structure NewAddressResponse where
  Address : String := ""
deriving DecidableEq

/-- The Go type `GetInfoResponse`. -/
structure GetInfoResponse where
  Id : String := ""
  Port : Nat := 0
  Testnet : Bool := false
  Version : String := ""
  BlockHeight : Nat := 0
deriving DecidableEq

/-- The Go type `Peer`. -/
structure Peer where
  State : String := ""
  PeerId : String := ""
  Connected : Bool := false
  OurAmount : Int := 0
  TheirAmount : Int := 0
  OurFee : Int := 0
  TheirFee : Int := 0
deriving DecidableEq

/-- The Go type `Channel`. -/
structure Channel where
  From : String := ""
  To : String := ""
  BaseFee : Nat := 0
  ProportionalFee : Nat := 0
deriving DecidableEq

/-- The Go type `GetChannelsResponse`. -/
structure GetChannelsResponse where
  Channels : Slice Channel := {}
deriving DecidableEq

/-- The Go type `GetPeersResponse`. -/
structure GetPeersResponse where
  Peers : Slice Peer := {}
deriving DecidableEq

/-- The Go type `RouteHop`. -/
structure RouteHop where
  NodeId : String := ""
  Amount : Nat := 0
  Delay : Nat := 0
  Channel : String := ""
deriving DecidableEq

/-- The Go type `Route`. -/
structure Route where
  Hops : Slice RouteHop := {}
deriving DecidableEq

/-- The Go type `SendPaymentResponse`. -/
structure SendPaymentResponse where
  PaymentKey : String := ""
deriving DecidableEq

/-- The Go type `NodeAddress`. -/
structure NodeAddress where
  «Type» : String := ""
  Address : String := ""
  Port : Nat := 0
deriving DecidableEq

/-- The Go type `Node`. -/
structure Node where
  Id : String := ""
  Addresses : Slice NodeAddress := {}
deriving DecidableEq

/-- The Go type `GetNodesResponse`. -/
structure GetNodesResponse where
  Nodes : Slice Node := {}
deriving DecidableEq

/-- The Go type `Invoice`. -/
structure Invoice where
  PaymentHash : String := ""
  PaymentKey : String := ""
deriving DecidableEq

/-- One element of a `[]interface{}` parameter list, with its Go type: the
methods of the package put strings, `uint`, `uint64`, `float32` and
`[]RouteHop` values into such lists. -/
inductive Arg where
  | string (s : String)
  | uint (n : Nat)
  | uint64 (n : Nat)
  | float32 (f : GoFloat32)
  | routeHops (hops : Slice RouteHop)
deriving DecidableEq

/-- The `req interface{}` argument of `call`: either `&Empty{}` or a
`[]interface{}` holding the given elements in order (`params []` is the slice
without elements that `var params []interface{}` declares). -/
inductive Request where
  | emptyStruct
  | params (xs : List Arg)
deriving DecidableEq

/-! ## Decoding a result into a reply struct (`encoding/json`) -/

/-- The name `encoding/json` gives a JSON value in an `UnmarshalTypeError`. -/
def Json.describe : Json → String
  | Json.null => "null"
  | Json.bool _ => "bool"
  | Json.nat _ => "number"
  | Json.negInt _ => "number"
  | Json.number _ => "number"
  | Json.str _ => "string"
  | Json.arr _ => "array"
  | Json.obj _ => "object"

/-- Decoding a JSON value into a Go variable that currently holds `cur`: the new
content of the variable, and the error `Unmarshal` reports, if any. -/
abbrev Decoder (α : Type) := Json → α → α × Option Err

/-- The decoder keeps the first error it meets and goes on decoding. -/
def firstErr : Option Err → Option Err → Option Err
  | some e, _ => some e
  | none, e => e

/-- Decoding into a Go `string`. JSON `null` leaves the variable as it is. -/
def decodeString : Decoder String
  | Json.null, cur => (cur, none)
  | Json.str s, _ => (s, none)
  | j, cur => (cur, some (Err.unmarshalType j.describe "string"))

/-- Decoding into a Go `bool`. -/
def decodeBool : Decoder Bool
  | Json.null, cur => (cur, none)
  | Json.bool b, _ => (b, none)
  | j, cur => (cur, some (Err.unmarshalType j.describe "bool"))

/-- Decoding into an unsigned Go integer of the given width
(`strconv.ParseUint`): the literal has to be made of digits alone, without a
sign, a fraction or an exponent, and its value has to be below `2^bits`. -/
def decodeUint (bits : Nat) (goType : String) : Decoder Nat
  | Json.null, cur => (cur, none)
  | Json.nat m, cur =>
    if m < 2 ^ bits then (m, none)
    else (cur, some (Err.unmarshalType ("number " ++ toString m) goType))
  | Json.negInt m, cur => (cur, some (Err.unmarshalType ("number -" ++ toString m) goType))
  | Json.number literal, cur => (cur, some (Err.unmarshalType ("number " ++ literal) goType))
  | j, cur => (cur, some (Err.unmarshalType j.describe goType))

/-- Decoding into a signed Go integer of the given width (`strconv.ParseInt`): the
literal has to be made of digits, with or without a minus sign, and its value
has to lie in `[-2^(bits-1), 2^(bits-1))`. -/
def decodeInt (bits : Nat) (goType : String) : Decoder Int
  | Json.null, cur => (cur, none)
  | Json.nat m, cur =>
    if m < 2 ^ (bits - 1) then (Int.ofNat m, none)
    else (cur, some (Err.unmarshalType ("number " ++ toString m) goType))
  | Json.negInt m, cur =>
    if m ≤ 2 ^ (bits - 1) then (-(Int.ofNat m), none)
    else (cur, some (Err.unmarshalType ("number -" ++ toString m) goType))
  | Json.number literal, cur => (cur, some (Err.unmarshalType ("number " ++ literal) goType))
  | j, cur => (cur, some (Err.unmarshalType j.describe goType))

/-- The elements of a JSON array decoded one after the other, the i-th into the
i-th element of the backing array (an element in view or a spare one), or
into a zero value when the backing array holds none. Returns the decoded
elements, the elements of the backing array not reached, and the first
error. -/
def decodeElems {α : Type} (zero : α) (elem : Decoder α) :
    List Json → List α → List α × List α × Option Err
  | [], backing => ([], backing, none)
  | x :: xs, backing =>
    let r := elem x (backing.headD zero)
    let rs := decodeElems zero elem xs backing.tail
    (r.1 :: rs.1, rs.2.1, firstErr r.2 rs.2.2)

/-- Decoding into a Go slice: `null` sets it to nil, an array without elements to
a fresh empty slice, any other array is decoded element by element over the
backing array and the length is set to the number of elements, which leaves
the elements not reached as spare ones. -/
def decodeSlice {α : Type} (goType : String) (zero : α) (elem : Decoder α) : Decoder (Slice α)
  | Json.null, _ => ({}, none)
  | Json.arr [], _ => ({}, none)
  | Json.arr (x :: xs), cur =>
    (⟨(decodeElems zero elem (x :: xs) (cur.elems ++ cur.spare)).1,
      (decodeElems zero elem (x :: xs) (cur.elems ++ cur.spare)).2.1⟩,
     (decodeElems zero elem (x :: xs) (cur.elems ++ cur.spare)).2.2)
  | j, cur => (cur, some (Err.unmarshalType j.describe goType))

/-- One field of a Go struct as `encoding/json` sees it: the key it is filed
under (the name in the `json` tag, or the Go field name when the field has no
well-formed tag) and how a value is decoded into it. -/
structure Field (α : Type) where
  key : String
  set : Decoder α

/-- Case folding of one character of an object key: ASCII letters to upper case,
and the two non-ASCII characters that fold to an ASCII letter (the Kelvin sign
to K, the long s to S). -/
def foldRune (c : Char) : Char :=
  if c = Char.ofNat 0x212A then Char.ofNat 75
  else if c = Char.ofNat 0x17F then Char.ofNat 83
  else if Char.ofNat 97 ≤ c ∧ c ≤ Char.ofNat 122 then Char.ofNat (c.toNat - 32)
  else c

/-- Equality of two keys up to case. -/
def equalFold (a b : String) : Bool :=
  a.toList.map foldRune == b.toList.map foldRune

/-- The field an object key is decoded into: the field filed under exactly that
key, otherwise the first field whose key equals it up to case. -/
def findField {α : Type} (fields : List (Field α)) (key : String) : Option (Field α) :=
  match fields.find? (fun f => f.key == key) with
  | some f => some f
  | none => fields.find? (fun f => equalFold f.key key)

/-- One member of a JSON object decoded into the struct: members whose key names
no field are skipped. -/
def decodeMember {α : Type} (fields : List (Field α)) (acc : α × Option Err)
    (kv : String × Json) : α × Option Err :=
  match findField fields kv.1 with
  | none => acc
  | some f => ((f.set kv.2 acc.1).1, firstErr acc.2 (f.set kv.2 acc.1).2)

/-- Decoding into a Go struct: `null` leaves it as it is, an object is decoded
member by member in the order of the document, anything else is a type error. -/
def decodeStruct {α : Type} (goType : String) (fields : List (Field α)) : Decoder α
  | Json.null, cur => (cur, none)
  | Json.obj kvs, cur => kvs.foldl (decodeMember fields) (cur, none)
  | j, cur => (cur, some (Err.unmarshalType j.describe goType))

/-- The width of the Go types `uint` and `int` (a 64-bit target). -/
def uintSize : Nat := 64

/-- Decoding for the Go types a reply is decoded into: the model of
`json.Unmarshal(result, res)` for a `res` pointing to a value of type `α`. -/
class Unmarshal (α : Type) where
  unmarshal : Decoder α

/-- The struct `Empty` has no fields. -/
def Empty.fields : List (Field Empty) := []

/-- Fields of `NewAddressResponse`, with the keys of their `json` tags. -/
def NewAddressResponse.fields : List (Field NewAddressResponse) :=
  [⟨"address", fun j r => ({ r with Address := (decodeString j r.Address).1 }, (decodeString j r.Address).2)⟩]

/-- Fields of `GetInfoResponse`, with the keys of their `json` tags. -/
def GetInfoResponse.fields : List (Field GetInfoResponse) :=
  [⟨"id", fun j r => ({ r with Id := (decodeString j r.Id).1 }, (decodeString j r.Id).2)⟩,
   ⟨"port", fun j r =>
      ({ r with Port := (decodeUint uintSize "uint" j r.Port).1 }, (decodeUint uintSize "uint" j r.Port).2)⟩,
   ⟨"testnet", fun j r => ({ r with Testnet := (decodeBool j r.Testnet).1 }, (decodeBool j r.Testnet).2)⟩,
   ⟨"version", fun j r => ({ r with Version := (decodeString j r.Version).1 }, (decodeString j r.Version).2)⟩,
   ⟨"blockheight", fun j r =>
      ({ r with BlockHeight := (decodeUint uintSize "uint" j r.BlockHeight).1 },
       (decodeUint uintSize "uint" j r.BlockHeight).2)⟩]

/-- Fields of `Peer`, with the keys of their `json` tags. -/
def Peer.fields : List (Field Peer) :=
  [⟨"state", fun j r => ({ r with State := (decodeString j r.State).1 }, (decodeString j r.State).2)⟩,
   ⟨"peerid", fun j r => ({ r with PeerId := (decodeString j r.PeerId).1 }, (decodeString j r.PeerId).2)⟩,
   ⟨"connected", fun j r =>
      ({ r with Connected := (decodeBool j r.Connected).1 }, (decodeBool j r.Connected).2)⟩,
   ⟨"our_amount", fun j r =>
      ({ r with OurAmount := (decodeInt uintSize "int" j r.OurAmount).1 },
       (decodeInt uintSize "int" j r.OurAmount).2)⟩,
   ⟨"their_amount", fun j r =>
      ({ r with TheirAmount := (decodeInt uintSize "int" j r.TheirAmount).1 },
       (decodeInt uintSize "int" j r.TheirAmount).2)⟩,
   ⟨"our_fee", fun j r =>
      ({ r with OurFee := (decodeInt uintSize "int" j r.OurFee).1 }, (decodeInt uintSize "int" j r.OurFee).2)⟩,
   ⟨"their_fee", fun j r =>
      ({ r with TheirFee := (decodeInt uintSize "int" j r.TheirFee).1 },
       (decodeInt uintSize "int" j r.TheirFee).2)⟩]

/-- Fields of `Channel`. The tags of `From` and `To` are written `json: "from"`
and `json: "to"`, with a blank after the colon: such a tag is not
well-formed, so both fields are filed under their Go names. -/
def Channel.fields : List (Field Channel) :=
  [⟨"From", fun j r => ({ r with From := (decodeString j r.From).1 }, (decodeString j r.From).2)⟩,
   ⟨"To", fun j r => ({ r with To := (decodeString j r.To).1 }, (decodeString j r.To).2)⟩,
   ⟨"base_fee", fun j r =>
      ({ r with BaseFee := (decodeUint uintSize "uint" j r.BaseFee).1 },
       (decodeUint uintSize "uint" j r.BaseFee).2)⟩,
   ⟨"proportional_fee", fun j r =>
      ({ r with ProportionalFee := (decodeUint uintSize "uint" j r.ProportionalFee).1 },
       (decodeUint uintSize "uint" j r.ProportionalFee).2)⟩]

/-- Fields of `RouteHop`, with the keys of their `json` tags. -/
def RouteHop.fields : List (Field RouteHop) :=
  [⟨"id", fun j r => ({ r with NodeId := (decodeString j r.NodeId).1 }, (decodeString j r.NodeId).2)⟩,
   ⟨"msatoshi", fun j r =>
      ({ r with Amount := (decodeUint 64 "uint64" j r.Amount).1 }, (decodeUint 64 "uint64" j r.Amount).2)⟩,
   ⟨"delay", fun j r =>
      ({ r with Delay := (decodeUint 32 "uint32" j r.Delay).1 }, (decodeUint 32 "uint32" j r.Delay).2)⟩,
   ⟨"channel", fun j r => ({ r with Channel := (decodeString j r.Channel).1 }, (decodeString j r.Channel).2)⟩]

/-- Fields of `NodeAddress`, with the keys of their `json` tags. -/
def NodeAddress.fields : List (Field NodeAddress) :=
  [⟨"type", fun j r => ({ r with «Type» := (decodeString j r.«Type»).1 }, (decodeString j r.«Type»).2)⟩,
   ⟨"address", fun j r => ({ r with Address := (decodeString j r.Address).1 }, (decodeString j r.Address).2)⟩,
   ⟨"port", fun j r =>
      ({ r with Port := (decodeUint 16 "uint16" j r.Port).1 }, (decodeUint 16 "uint16" j r.Port).2)⟩]

/-- Fields of `Node`, with the keys of their `json` tags. -/
def Node.fields : List (Field Node) :=
  [⟨"nodeid", fun j r => ({ r with Id := (decodeString j r.Id).1 }, (decodeString j r.Id).2)⟩,
   ⟨"addresses", fun j r =>
      ({ r with Addresses :=
          (decodeSlice "[]lightningrpc.NodeAddress" {} (decodeStruct "lightningrpc.NodeAddress" NodeAddress.fields)
            j r.Addresses).1 },
       (decodeSlice "[]lightningrpc.NodeAddress" {} (decodeStruct "lightningrpc.NodeAddress" NodeAddress.fields)
            j r.Addresses).2)⟩]

/-- Fields of `GetChannelsResponse`, with the keys of their `json` tags. -/
def GetChannelsResponse.fields : List (Field GetChannelsResponse) :=
  [⟨"channels", fun j r =>
      ({ r with Channels :=
          (decodeSlice "[]lightningrpc.Channel" {} (decodeStruct "lightningrpc.Channel" Channel.fields)
            j r.Channels).1 },
       (decodeSlice "[]lightningrpc.Channel" {} (decodeStruct "lightningrpc.Channel" Channel.fields)
            j r.Channels).2)⟩]

/-- Fields of `GetPeersResponse`, with the keys of their `json` tags. -/
def GetPeersResponse.fields : List (Field GetPeersResponse) :=
  [⟨"peers", fun j r =>
      ({ r with Peers :=
          (decodeSlice "[]lightningrpc.Peer" {} (decodeStruct "lightningrpc.Peer" Peer.fields) j r.Peers).1 },
       (decodeSlice "[]lightningrpc.Peer" {} (decodeStruct "lightningrpc.Peer" Peer.fields) j r.Peers).2)⟩]

/-- Fields of `Route`, with the keys of their `json` tags. -/
def Route.fields : List (Field Route) :=
  [⟨"route", fun j r =>
      ({ r with Hops :=
          (decodeSlice "[]lightningrpc.RouteHop" {} (decodeStruct "lightningrpc.RouteHop" RouteHop.fields)
            j r.Hops).1 },
       (decodeSlice "[]lightningrpc.RouteHop" {} (decodeStruct "lightningrpc.RouteHop" RouteHop.fields)
            j r.Hops).2)⟩]

/-- Fields of `SendPaymentResponse`, with the keys of their `json` tags. -/
def SendPaymentResponse.fields : List (Field SendPaymentResponse) :=
  [⟨"preimage", fun j r =>
      ({ r with PaymentKey := (decodeString j r.PaymentKey).1 }, (decodeString j r.PaymentKey).2)⟩]

/-- Fields of `GetNodesResponse`, with the keys of their `json` tags. -/
def GetNodesResponse.fields : List (Field GetNodesResponse) :=
  [⟨"nodes", fun j r =>
      ({ r with Nodes :=
          (decodeSlice "[]lightningrpc.Node" {} (decodeStruct "lightningrpc.Node" Node.fields) j r.Nodes).1 },
       (decodeSlice "[]lightningrpc.Node" {} (decodeStruct "lightningrpc.Node" Node.fields) j r.Nodes).2)⟩]

/-- Fields of `Invoice`, with the keys of their `json` tags. -/
def Invoice.fields : List (Field Invoice) :=
  [⟨"rhash", fun j r =>
      ({ r with PaymentHash := (decodeString j r.PaymentHash).1 }, (decodeString j r.PaymentHash).2)⟩,
   ⟨"paymentKey", fun j r =>
      ({ r with PaymentKey := (decodeString j r.PaymentKey).1 }, (decodeString j r.PaymentKey).2)⟩]

instance : Unmarshal Empty := ⟨decodeStruct "lightningrpc.Empty" Empty.fields⟩

instance : Unmarshal NewAddressResponse :=
  ⟨decodeStruct "lightningrpc.NewAddressResponse" NewAddressResponse.fields⟩

instance : Unmarshal GetInfoResponse :=
  ⟨decodeStruct "lightningrpc.GetInfoResponse" GetInfoResponse.fields⟩

instance : Unmarshal GetChannelsResponse :=
  ⟨decodeStruct "lightningrpc.GetChannelsResponse" GetChannelsResponse.fields⟩

instance : Unmarshal GetPeersResponse :=
  ⟨decodeStruct "lightningrpc.GetPeersResponse" GetPeersResponse.fields⟩

instance : Unmarshal Route := ⟨decodeStruct "lightningrpc.Route" Route.fields⟩

instance : Unmarshal SendPaymentResponse :=
  ⟨decodeStruct "lightningrpc.SendPaymentResponse" SendPaymentResponse.fields⟩

instance : Unmarshal GetNodesResponse :=
  ⟨decodeStruct "lightningrpc.GetNodesResponse" GetNodesResponse.fields⟩

instance : Unmarshal Invoice := ⟨decodeStruct "lightningrpc.Invoice" Invoice.fields⟩

/-! ## The outside world -/

/-- A handle on an open connection (the `*jsonrpc2.Client` returned by `Dial`). -/
abbrev Conn := Nat

/-- An effect on the transport, as the package causes it. A dial is recorded with
its outcome: the connection it opened, or `none` when it failed. A request is
one invocation of the client's `Call` on a connection. -/
inductive Event where
  | dial (network : String) (address : String) (opened : Option Conn)
  | request (conn : Conn) (method : String) (req : Request)
  | close (conn : Conn)
deriving DecidableEq

/-- An argument of a `log.Debugf` invocation. -/
inductive LogArg where
  | str (s : String)
  | req (r : Request)
  | err (e : Option Err)

/-- One `log.Debugf` invocation: the format string and its arguments. -/
structure LogEntry where
  format : String
  args : List LogArg

/-- What the client reads back for one request: a response it takes as a JSON-RPC
result, a response it takes as a JSON-RPC error object, or no usable response
at all. -/
inductive Answer where
  | result (j : Json)
  | error (code : Int) (message : String) (data : Option Json)
  | failed (e : Err)

/-- The environment the package runs against, over its own state `σ`: what a dial
of a network address yields, what a request on an open connection yields, what
closing a connection yields. Nothing is assumed about any of the three. -/
structure Transport (σ : Type) where
  dial : String → String → σ → Except Err Conn × σ
  roundTrip : Conn → String → Request → σ → Answer × σ
  close : Conn → σ → Option Err × σ

/-- The state of the outside world together with the record of what the package
did to it. -/
structure World (σ : Type) where
  env : σ
  trace : List Event
  log : List LogEntry

/-- The function `log.Debugf`: the invocation is recorded. -/
def World.debugf {σ : Type} (w : World σ) (format : String) (args : List LogArg) : World σ :=
  { w with log := w.log ++ [⟨format, args⟩] }

/-- The connection a dial opened, if any. -/
def opened : Except Err Conn → Option Conn
  | Except.ok c => some c
  | Except.error _ => none

/-- The function `jsonrpc2.Dial(network, address)`: one dial attempt, recorded in
the trace. -/
def jsonrpc2Dial {σ : Type} (T : Transport σ) (network address : String) (w : World σ) :
    Except Err Conn × World σ :=
  ((T.dial network address w.env).1,
   { w with
     env := (T.dial network address w.env).2,
     trace := w.trace ++ [Event.dial network address (opened (T.dial network address w.env).1)] })

/-- What the client makes of the answer to a call with reply variable `res`: a
result is decoded into `res`, an error object becomes the `remote` error and
leaves `res` untouched (`net/rpc` discards the body of an error response), a
failed exchange is reported as it is. -/
def deliver {α : Type} [Unmarshal α] (res : α) : Answer → α × Option Err
  | Answer.result j => ((Unmarshal.unmarshal j res).1, (Unmarshal.unmarshal j res).2.map Err.readingBody)
  | Answer.error code message data => (res, some (Err.remote code message data))
  | Answer.failed e => (res, some e)

/-- The method `(*jsonrpc2.Client).Call(method, req, res)`: one request on the
connection, recorded in the trace; returns the reply variable after the call
and the error. -/
def clientCall {σ : Type} {α : Type} [Unmarshal α] (T : Transport σ) (c : Conn) (method : String)
    (req : Request) (res : α) (w : World σ) : (α × Option Err) × World σ :=
  (deliver res (T.roundTrip c method req w.env).1,
   { w with env := (T.roundTrip c method req w.env).2, trace := w.trace ++ [Event.request c method req] })

/-- The method `(*jsonrpc2.Client).Close()`: recorded in the trace; returns the
error of closing. -/
def clientClose {σ : Type} (T : Transport σ) (c : Conn) (w : World σ) : Option Err × World σ :=
  ((T.close c w.env).1, { w with env := (T.close c w.env).2, trace := w.trace ++ [Event.close c] })

/-! ## The package -/

/-- The Go type `LightningRpc`. The field `conn` is a `net.Conn` interface value,
`none` when it is `nil`. -/
structure LightningRpc where
  socketPath : String
  conn : Option Conn := none
deriving DecidableEq

/-- What a method returns and leaves behind: the returned value, the returned
error, the receiver after the call, the world after the call. -/
structure Ret (σ : Type) (α : Type) where
  val : α
  err : Option Err
  recv : LightningRpc
  world : World σ

/-- The function `NewLightningRpc`. -/
def NewLightningRpc (socketPath : String) : LightningRpc :=
  { socketPath := socketPath }

namespace LightningRpc

/-- The method `(lr *LightningRpc) call(method, req, res)`. `val` is the content of
`*res` when the method returns. The deferred `clientTCP.Close()` runs after the
return value is fixed, and what it returns is dropped. -/
def call {σ : Type} {α : Type} [Unmarshal α] (T : Transport σ) (lr : LightningRpc)
    (method : String) (req : Request) (res : α) (w : World σ) : Ret σ α :=
  let w0 := w.debugf "Calling lightning.%s with args %v" [LogArg.str method, LogArg.req req]
  match jsonrpc2Dial T "unix" lr.socketPath w0 with
  | (Except.error err, w1) => ⟨res, some err, lr, w1⟩
  | (Except.ok clientTCP, w1) =>
    match clientCall T clientTCP method req res w1 with
    | ((res1, some err), w2) =>
      let w3 := w2.debugf "error calling %s: %v" [LogArg.str method, LogArg.err (some err)]
      ⟨res1, errorsWrap (some err) ("error calling " ++ method), lr, (clientClose T clientTCP w3).2⟩
    | ((res1, none), w2) =>
      let w3 := w2.debugf "method %s returned %v" [LogArg.str method, LogArg.err none]
      ⟨res1, none, lr, (clientClose T clientTCP w3).2⟩

/-- The method `NewAddress`. -/
def NewAddress {σ : Type} (T : Transport σ) (lr : LightningRpc) (w : World σ) :
    Ret σ NewAddressResponse :=
  let res : NewAddressResponse := {}
  call T lr "newaddr" Request.emptyStruct res w

/-- The method `GetInfo`. -/
def GetInfo {σ : Type} (T : Transport σ) (lr : LightningRpc) (w : World σ) : Ret σ GetInfoResponse :=
  let res : GetInfoResponse := {}
  call T lr "getinfo" Request.emptyStruct res w

/-- The method `GetChannels`. -/
def GetChannels {σ : Type} (T : Transport σ) (lr : LightningRpc) (w : World σ) :
    Ret σ GetChannelsResponse :=
  let res : GetChannelsResponse := {}
  call T lr "getchannels" Request.emptyStruct res w

/-- The method `GetPeers`. -/
def GetPeers {σ : Type} (T : Transport σ) (lr : LightningRpc) (w : World σ) : Ret σ GetPeersResponse :=
  let res : GetPeersResponse := {}
  call T lr "getpeers" Request.emptyStruct res w

/-- The method `Connect`: only the error of `call` is returned, the `Empty` reply
is dropped. -/
def Connect {σ : Type} (T : Transport σ) (lr : LightningRpc) (host : String) (port : Nat)
    (fundingTx : String) (w : World σ) : Ret σ Unit :=
  let params : List Arg := []
  let params := params ++ [Arg.string host]
  let params := params ++ [Arg.uint port]
  let params := params ++ [Arg.string fundingTx]
  let r := call T lr "connect" (Request.params params) ({} : Empty) w
  ⟨(), r.err, r.recv, r.world⟩

/-- The method `Close`. -/
def Close {σ : Type} (T : Transport σ) (lr : LightningRpc) (peerId : String) (w : World σ) :
    Ret σ Unit :=
  let params : List Arg := []
  let params := params ++ [Arg.string peerId]
  let r := call T lr "close" (Request.params params) ({} : Empty) w
  ⟨(), r.err, r.recv, r.world⟩

/-- The method `GetRoute`. -/
def GetRoute {σ : Type} (T : Transport σ) (lr : LightningRpc) (destination : String) (amount : Nat)
    (riskfactor : GoFloat32) (w : World σ) : Ret σ Route :=
  let params : List Arg := []
  let params := params ++ [Arg.string destination]
  let params := params ++ [Arg.uint64 amount]
  let params := params ++ [Arg.float32 riskfactor]
  let res : Route := {}
  call T lr "getroute" (Request.params params) res w

/-- The method `SendPayment`. -/
def SendPayment {σ : Type} (T : Transport σ) (lr : LightningRpc) (route : Slice RouteHop)
    (paymentHash : String) (w : World σ) : Ret σ SendPaymentResponse :=
  let params : List Arg := []
  let params := params ++ [Arg.routeHops route]
  let params := params ++ [Arg.string paymentHash]
  let res : SendPaymentResponse := {}
  call T lr "sendpay" (Request.params params) res w

/-- The method `GetNodes`. -/
def GetNodes {σ : Type} (T : Transport σ) (lr : LightningRpc) (w : World σ) : Ret σ GetNodesResponse :=
  let res : GetNodesResponse := {}
  call T lr "getnodes" Request.emptyStruct res w

/-- The method `Invoice`. -/
def Invoice {σ : Type} (T : Transport σ) (lr : LightningRpc) (amount : Nat) (label : String)
    (w : World σ) : Ret σ lightningrpc.Invoice :=
  let params : List Arg := []
  let params := params ++ [Arg.uint64 amount]
  let params := params ++ [Arg.string label]
  let res : lightningrpc.Invoice := {}
  call T lr "invoice" (Request.params params) res w

/-- The method `Stop`. -/
def Stop {σ : Type} (T : Transport σ) (lr : LightningRpc) (w : World σ) : Ret σ Unit :=
  let params : List Arg := []
  let res : Empty := {}
  let r := call T lr "stop" (Request.params params) res w
  ⟨(), r.err, r.recv, r.world⟩

end LightningRpc

/-! ## The public interface as one family, and what the specification says of it -/

/-- An invocation of one of the eleven public methods, with its arguments. -/
inductive Op where
  | NewAddress
  | GetInfo
  | GetChannels
  | GetPeers
  | Connect (host : String) (port : Nat) (fundingTx : String)
  | Close (peerId : String)
  | GetRoute (destination : String) (amount : Nat) (riskfactor : GoFloat32)
  | SendPayment (route : Slice RouteHop) (paymentHash : String)
  | GetNodes
  | Invoice (amount : Nat) (label : String)
  | Stop

/-- The type of the value a public method returns next to its error (`Unit` for
the methods that return only an error). -/
def Op.Resp : Op → Type
  | Op.NewAddress => NewAddressResponse
  | Op.GetInfo => GetInfoResponse
  | Op.GetChannels => GetChannelsResponse
  | Op.GetPeers => GetPeersResponse
  | Op.Connect _ _ _ => Unit
  | Op.Close _ => Unit
  | Op.GetRoute _ _ _ => Route
  | Op.SendPayment _ _ => SendPaymentResponse
  | Op.GetNodes => GetNodesResponse
  | Op.Invoice _ _ => lightningrpc.Invoice
  | Op.Stop => Unit

/-- Running an invocation: the public method it names, applied to its arguments. -/
def Op.run {σ : Type} (T : Transport σ) (lr : LightningRpc) : (op : Op) → World σ → Ret σ op.Resp
  | Op.NewAddress => lr.NewAddress T
  | Op.GetInfo => lr.GetInfo T
  | Op.GetChannels => lr.GetChannels T
  | Op.GetPeers => lr.GetPeers T
  | Op.Connect host port fundingTx => lr.Connect T host port fundingTx
  | Op.Close peerId => lr.Close T peerId
  | Op.GetRoute destination amount riskfactor => lr.GetRoute T destination amount riskfactor
  | Op.SendPayment route paymentHash => lr.SendPayment T route paymentHash
  | Op.GetNodes => lr.GetNodes T
  | Op.Invoice amount label => lr.Invoice T amount label
  | Op.Stop => lr.Stop T

/-- The zero value of the response type of a method. -/
def Op.zero : (op : Op) → op.Resp
  | Op.NewAddress => ({} : NewAddressResponse)
  | Op.GetInfo => ({} : GetInfoResponse)
  | Op.GetChannels => ({} : GetChannelsResponse)
  | Op.GetPeers => ({} : GetPeersResponse)
  | Op.Connect _ _ _ => ()
  | Op.Close _ => ()
  | Op.GetRoute _ _ _ => ({} : Route)
  | Op.SendPayment _ _ => ({} : SendPaymentResponse)
  | Op.GetNodes => ({} : GetNodesResponse)
  | Op.Invoice _ _ => ({} : lightningrpc.Invoice)
  | Op.Stop => ()

/-- The position of the operation among the eleven of the catalog. -/
def Op.ordinal : Op → Nat
  | Op.NewAddress => 0
  | Op.GetInfo => 1
  | Op.GetPeers => 2
  | Op.GetChannels => 3
  | Op.Connect _ _ _ => 4
  | Op.Close _ => 5
  | Op.GetRoute _ _ _ => 6
  | Op.SendPayment _ _ => 7
  | Op.GetNodes => 8
  | Op.Invoice _ _ => 9
  | Op.Stop => 10

/-- The method catalog, as specified: the wire method name of each operation. -/
def Op.wireName : Op → String
  | Op.NewAddress => "newaddr"
  | Op.GetInfo => "getinfo"
  | Op.GetPeers => "getpeers"
  | Op.GetChannels => "getchannels"
  | Op.Connect _ _ _ => "connect"
  | Op.Close _ => "close"
  | Op.GetRoute _ _ _ => "getroute"
  | Op.SendPayment _ _ => "sendpay"
  | Op.GetNodes => "getnodes"
  | Op.Invoice _ _ => "invoice"
  | Op.Stop => "stop"

/-- The parameter encoding, as specified: the arguments in
declaration order as a positional sequence, the empty sequence for `Stop`, a
single empty struct for the queries without arguments. -/
def Op.wireParams : Op → Request
  | Op.NewAddress => Request.emptyStruct
  | Op.GetInfo => Request.emptyStruct
  | Op.GetPeers => Request.emptyStruct
  | Op.GetChannels => Request.emptyStruct
  | Op.Connect host port fundingTx =>
    Request.params [Arg.string host, Arg.uint port, Arg.string fundingTx]
  | Op.Close peerId => Request.params [Arg.string peerId]
  | Op.GetRoute destination amount riskfactor =>
    Request.params [Arg.string destination, Arg.uint64 amount, Arg.float32 riskfactor]
  | Op.SendPayment route paymentHash => Request.params [Arg.routeHops route, Arg.string paymentHash]
  | Op.GetNodes => Request.emptyStruct
  | Op.Invoice amount label => Request.params [Arg.uint64 amount, Arg.string label]
  | Op.Stop => Request.params []

/-- The transport effects of one connect-per-call exchange, given what the dial
yields: the dial alone when it fails, otherwise the dial, one request on the
connection just opened, and the close of that connection. -/
def exchange (path : String) (method : String) (req : Request) : Except Err Conn → List Event
  | Except.error _ => [Event.dial "unix" path none]
  | Except.ok c => [Event.dial "unix" path (some c), Event.request c method req, Event.close c]

/-- The requests of a trace: connection, method name and parameters, in order. -/
def requestsOf : List Event → List (Conn × String × Request)
  | [] => []
  | Event.request c m r :: es => (c, m, r) :: requestsOf es
  | _ :: es => requestsOf es

/-- The dial attempts of a trace: network and address, in order. -/
def dialsOf : List Event → List (String × String)
  | [] => []
  | Event.dial n a _ :: es => (n, a) :: dialsOf es
  | _ :: es => dialsOf es

/-- The close operations of a trace, in order. -/
def closesOf : List Event → List Conn
  | [] => []
  | Event.close c :: es => c :: closesOf es
  | _ :: es => closesOf es

/-- The connections open after a run of events, given those open before it: a
successful dial opens one, a close removes one. -/
def track (conns : List Conn) : List Event → List Conn
  | [] => conns
  | Event.dial _ _ (some c) :: es => track (c :: conns) es
  | Event.close c :: es => track (conns.erase c) es
  | _ :: es => track conns es

/-- The connections a run of events opens and does not close. -/
def leftOpen (es : List Event) : List Conn := track [] es

/-- The members of a `getinfo` result object that carries the five values under
the keys id, port, testnet, version and blockheight. -/
def getInfoResult (id : String) (port : Nat) (testnet : Bool) (version : String) (blockheight : Nat) :
    List (String × Json) :=
  [("id", Json.str id), ("port", Json.nat port), ("testnet", Json.bool testnet),
    ("version", Json.str version), ("blockheight", Json.nat blockheight)]

/-- A transport with a fixed script, over a state that counts its steps: every
dial of the expected address opens connection 7 and any other dial is refused,
every request is answered by `answer`, closing succeeds. -/
def scripted (address : String) (answer : String → Request → Answer) : Transport Nat where
  dial := fun _ a n => (if a = address then Except.ok 7 else Except.error (Err.dial "connection refused"), n + 1)
  roundTrip := fun _ m r n => (answer m r, n + 1)
  close := fun _ n => (none, n + 1)

/-- The world before anything happened, for the scripted transport. -/
def World.start : World Nat := ⟨0, [], []⟩

/-! ## Properties -/

theorem call_trace {σ : Type} {α : Type} [Unmarshal α] (T : Transport σ) (lr : LightningRpc)
    (method : String) (req : Request) (res : α) (w : World σ) :
    (lr.call T method req res w).world.trace
      = w.trace ++ exchange lr.socketPath method req (T.dial "unix" lr.socketPath w.env).1 := by
  unfold LightningRpc.call
  simp only [jsonrpc2Dial, clientCall, clientClose, World.debugf]
  generalize T.dial "unix" lr.socketPath w.env = dr
  obtain ⟨d | c, e1⟩ := dr
  · simp [exchange, opened]
  · simp only []
    generalize deliver res (T.roundTrip c method req e1).1 = dv
    obtain ⟨v, _ | e⟩ := dv <;> simp [exchange, opened]

theorem call_recv {σ : Type} {α : Type} [Unmarshal α] (T : Transport σ) (lr : LightningRpc)
    (method : String) (req : Request) (res : α) (w : World σ) :
    (lr.call T method req res w).recv = lr := by
  unfold LightningRpc.call
  simp only [jsonrpc2Dial, clientCall, clientClose, World.debugf]
  generalize T.dial "unix" lr.socketPath w.env = dr
  obtain ⟨d | c, e1⟩ := dr
  · simp
  · simp only []
    generalize deliver res (T.roundTrip c method req e1).1 = dv
    obtain ⟨v, _ | e⟩ := dv <;> simp

theorem call_dial_error {σ : Type} {α : Type} [Unmarshal α] (T : Transport σ) (lr : LightningRpc)
    (method : String) (req : Request) (res : α) (w : World σ) (d : Err)
    (h : (T.dial "unix" lr.socketPath w.env).1 = Except.error d) :
    (lr.call T method req res w).val = res ∧ (lr.call T method req res w).err = some d := by
  unfold LightningRpc.call
  simp only [jsonrpc2Dial, clientCall, clientClose, World.debugf]
  generalize T.dial "unix" lr.socketPath w.env = dr at h
  obtain ⟨d1 | c, e1⟩ := dr
  · simp only [] at h
    cases h
    simp
  · simp at h

theorem call_dial_ok {σ : Type} {α : Type} [Unmarshal α] (T : Transport σ) (lr : LightningRpc)
    (method : String) (req : Request) (res : α) (w : World σ) (c : Conn)
    (h : (T.dial "unix" lr.socketPath w.env).1 = Except.ok c) :
    (lr.call T method req res w).val
        = (deliver res (T.roundTrip c method req (T.dial "unix" lr.socketPath w.env).2).1).1 ∧
      (lr.call T method req res w).err
        = errorsWrap (deliver res (T.roundTrip c method req (T.dial "unix" lr.socketPath w.env).2).1).2
            ("error calling " ++ method) := by
  unfold LightningRpc.call
  simp only [jsonrpc2Dial, clientCall, clientClose, World.debugf]
  generalize T.dial "unix" lr.socketPath w.env = dr at h
  obtain ⟨d1 | c1, e1⟩ := dr
  · simp at h
  · simp only [] at h
    cases h
    simp only []
    generalize deliver res (T.roundTrip c method req e1).1 = dv
    obtain ⟨v, _ | e⟩ := dv <;> simp [errorsWrap]

theorem call_socketPath {σ : Type} {α : Type} [Unmarshal α] (T : Transport σ) (p : String)
    (c1 c2 : Option Conn) (method : String) (req : Request) (res : α) (w : World σ) :
    (LightningRpc.call T ⟨p, c1⟩ method req res w).val = (LightningRpc.call T ⟨p, c2⟩ method req res w).val ∧
    (LightningRpc.call T ⟨p, c1⟩ method req res w).err = (LightningRpc.call T ⟨p, c2⟩ method req res w).err ∧
    (LightningRpc.call T ⟨p, c1⟩ method req res w).world
      = (LightningRpc.call T ⟨p, c2⟩ method req res w).world := by
  unfold LightningRpc.call
  simp only [jsonrpc2Dial, clientCall, clientClose, World.debugf]
  generalize T.dial "unix" p w.env = dr
  obtain ⟨d | c, e1⟩ := dr
  · simp
  · simp only []
    generalize deliver res (T.roundTrip c method req e1).1 = dv
    obtain ⟨v, _ | e⟩ := dv <;> simp

theorem requestsOf_append (a b : List Event) : requestsOf (a ++ b) = requestsOf a ++ requestsOf b := by
  induction a with
  | nil => rfl
  | cons e es ih => cases e <;> simp [requestsOf, ih]

theorem dialsOf_append (a b : List Event) : dialsOf (a ++ b) = dialsOf a ++ dialsOf b := by
  induction a with
  | nil => rfl
  | cons e es ih => cases e <;> simp [dialsOf, ih]

theorem closesOf_append (a b : List Event) : closesOf (a ++ b) = closesOf a ++ closesOf b := by
  induction a with
  | nil => rfl
  | cons e es ih => cases e <;> simp [closesOf, ih]

theorem track_append (conns : List Conn) (a b : List Event) :
    track conns (a ++ b) = track (track conns a) b := by
  induction a generalizing conns with
  | nil => rfl
  | cons e es ih =>
    cases e with
    | dial n a o => cases o <;> simp [track, ih]
    | request c m r => simp [track, ih]
    | close c => simp [track, ih]

theorem track_exchange (conns : List Conn) (path method : String) (req : Request)
    (r : Except Err Conn) : track conns (exchange path method req r) = conns := by
  cases r <;> simp [exchange, track]

theorem run_trace {σ : Type} (T : Transport σ) (lr : LightningRpc) (op : Op) (w : World σ) :
    (op.run T lr w).world.trace
      = w.trace ++ exchange lr.socketPath op.wireName op.wireParams (T.dial "unix" lr.socketPath w.env).1 := by
  cases op <;>
    simp [Op.run, Op.wireName, Op.wireParams, LightningRpc.NewAddress, LightningRpc.GetInfo,
      LightningRpc.GetChannels, LightningRpc.GetPeers, LightningRpc.Connect, LightningRpc.Close,
      LightningRpc.GetRoute, LightningRpc.SendPayment, LightningRpc.GetNodes, LightningRpc.Invoice,
      LightningRpc.Stop, call_trace]

theorem run_recv {σ : Type} (T : Transport σ) (lr : LightningRpc) (op : Op) (w : World σ) :
    (op.run T lr w).recv = lr := by
  cases op <;>
    simp [Op.run, LightningRpc.NewAddress, LightningRpc.GetInfo,
      LightningRpc.GetChannels, LightningRpc.GetPeers, LightningRpc.Connect, LightningRpc.Close,
      LightningRpc.GetRoute, LightningRpc.SendPayment, LightningRpc.GetNodes, LightningRpc.Invoice,
      LightningRpc.Stop, call_recv]

theorem run_dial_error {σ : Type} (T : Transport σ) (lr : LightningRpc) (op : Op) (w : World σ)
    (d : Err) (h : (T.dial "unix" lr.socketPath w.env).1 = Except.error d) :
    (op.run T lr w).val = op.zero ∧ (op.run T lr w).err = some d := by
  cases op <;>
    simp [Op.run, Op.zero, LightningRpc.NewAddress, LightningRpc.GetInfo,
      LightningRpc.GetChannels, LightningRpc.GetPeers, LightningRpc.Connect, LightningRpc.Close,
      LightningRpc.GetRoute, LightningRpc.SendPayment, LightningRpc.GetNodes, LightningRpc.Invoice,
      LightningRpc.Stop, call_dial_error _ _ _ _ _ _ d h]

theorem run_socketPath {σ : Type} (T : Transport σ) (p : String) (c1 c2 : Option Conn) (op : Op)
    (w : World σ) :
    (op.run T ⟨p, c1⟩ w).val = (op.run T ⟨p, c2⟩ w).val ∧
    (op.run T ⟨p, c1⟩ w).err = (op.run T ⟨p, c2⟩ w).err ∧
    (op.run T ⟨p, c1⟩ w).world = (op.run T ⟨p, c2⟩ w).world := by
  cases op <;>
    simp [Op.run, LightningRpc.NewAddress, LightningRpc.GetInfo,
      LightningRpc.GetChannels, LightningRpc.GetPeers, LightningRpc.Connect, LightningRpc.Close,
      LightningRpc.GetRoute, LightningRpc.SendPayment, LightningRpc.GetNodes, LightningRpc.Invoice,
      LightningRpc.Stop, (call_socketPath T p c1 c2 _ _ _ w)]

/-- C1: `call` returns a non-nil error exactly when the dial fails or the
client's `Call` on the connection just opened fails, and each of the eleven
public methods returns the very error its `call` returned. -/
theorem call_error_iff_transport_fails {σ : Type} {α : Type} [Unmarshal α] (T : Transport σ)
    (lr : LightningRpc) (method : String) (req : Request) (res : α) (w : World σ)
    (host fundingTx peerId destination paymentHash label : String) (port amount : Nat)
    (riskfactor : GoFloat32) (route : Slice RouteHop) :
    ((lr.call T method req res w).err ≠ none ↔
      ((∃ d, (T.dial "unix" lr.socketPath w.env).1 = Except.error d) ∨
       (∃ c, (T.dial "unix" lr.socketPath w.env).1 = Except.ok c ∧
          (clientCall T c method req res
            (jsonrpc2Dial T "unix" lr.socketPath
              (w.debugf "Calling lightning.%s with args %v" [LogArg.str method, LogArg.req req])).2).1.2
            ≠ none))) ∧
    (lr.NewAddress T w).err = (lr.call T "newaddr" Request.emptyStruct ({} : NewAddressResponse) w).err ∧
    (lr.GetInfo T w).err = (lr.call T "getinfo" Request.emptyStruct ({} : GetInfoResponse) w).err ∧
    (lr.GetChannels T w).err
      = (lr.call T "getchannels" Request.emptyStruct ({} : GetChannelsResponse) w).err ∧
    (lr.GetPeers T w).err = (lr.call T "getpeers" Request.emptyStruct ({} : GetPeersResponse) w).err ∧
    (lr.Connect T host port fundingTx w).err
      = (lr.call T "connect" (Request.params [Arg.string host, Arg.uint port, Arg.string fundingTx])
          ({} : Empty) w).err ∧
    (lr.Close T peerId w).err
      = (lr.call T "close" (Request.params [Arg.string peerId]) ({} : Empty) w).err ∧
    (lr.GetRoute T destination amount riskfactor w).err
      = (lr.call T "getroute"
          (Request.params [Arg.string destination, Arg.uint64 amount, Arg.float32 riskfactor])
          ({} : Route) w).err ∧
    (lr.SendPayment T route paymentHash w).err
      = (lr.call T "sendpay" (Request.params [Arg.routeHops route, Arg.string paymentHash])
          ({} : SendPaymentResponse) w).err ∧
    (lr.GetNodes T w).err = (lr.call T "getnodes" Request.emptyStruct ({} : GetNodesResponse) w).err ∧
    (lr.Invoice T amount label w).err
      = (lr.call T "invoice" (Request.params [Arg.uint64 amount, Arg.string label])
          ({} : lightningrpc.Invoice) w).err ∧
    (lr.Stop T w).err = (lr.call T "stop" (Request.params []) ({} : Empty) w).err := by
  refine ⟨?_, rfl, rfl, rfl, rfl, rfl, rfl, rfl, rfl, rfl, rfl, rfl⟩
  cases hd : (T.dial "unix" lr.socketPath w.env).1 with
  | error d =>
    have h := (call_dial_error T lr method req res w d hd).2
    simp [h]
  | ok c =>
    have h := (call_dial_ok T lr method req res w c hd).2
    rw [h]
    simp only [clientCall, jsonrpc2Dial, World.debugf]
    cases hv : (deliver res (T.roundTrip c method req (T.dial "unix" lr.socketPath w.env).2).1).2 with
    | none => simp [errorsWrap, hv]
    | some e => simp [errorsWrap, hv]

/-- C2, as stated, fails: with the dial succeeding and the client's `Call`
failing with the error `e` made from the error object (-1, "no route found"),
`call` does not return `e` itself. -/
theorem call_remote_error_not_verbatim :
    ((scripted "/run/lightning-rpc" (fun _ _ => Answer.error (-1) "no route found" none)).dial
        "unix" (NewLightningRpc "/run/lightning-rpc").socketPath World.start.env).1 = Except.ok 7 ∧
    (clientCall (scripted "/run/lightning-rpc" (fun _ _ => Answer.error (-1) "no route found" none))
        7 "close" (Request.params [Arg.string "03cd"]) ({} : Empty)
        (jsonrpc2Dial (scripted "/run/lightning-rpc" (fun _ _ => Answer.error (-1) "no route found" none))
          "unix" "/run/lightning-rpc" World.start).2).1.2
      = some (Err.remote (-1) "no route found" none) ∧
    (LightningRpc.call (scripted "/run/lightning-rpc" (fun _ _ => Answer.error (-1) "no route found" none))
        (NewLightningRpc "/run/lightning-rpc") "close" (Request.params [Arg.string "03cd"])
        ({} : Empty) World.start).err
      ≠ some (Err.remote (-1) "no route found" none) := by
  refine ⟨by simp [scripted, NewLightningRpc], by simp [clientCall, scripted, deliver], ?_⟩
  rw [(call_dial_ok _ _ _ _ _ _ 7 (by simp [scripted, NewLightningRpc])).2]
  simp [scripted, deliver, errorsWrap]

/-- C2, amended: when the dial succeeds and the client's `Call` fails with `e`,
`call` returns `e` annotated by `errors.Wrap` with the message
"error calling " followed by the method name. -/
theorem call_wraps_remote_error {σ : Type} {α : Type} [Unmarshal α] (T : Transport σ)
    (lr : LightningRpc) (method : String) (req : Request) (res : α) (w : World σ) (c : Conn) (e : Err)
    (hd : (T.dial "unix" lr.socketPath w.env).1 = Except.ok c)
    (hc : (clientCall T c method req res
            (jsonrpc2Dial T "unix" lr.socketPath
              (w.debugf "Calling lightning.%s with args %v" [LogArg.str method, LogArg.req req])).2).1.2
          = some e) :
    (lr.call T method req res w).err = some (Err.withMessage e ("error calling " ++ method)) := by
  rw [(call_dial_ok T lr method req res w c hd).2]
  simp only [clientCall, jsonrpc2Dial, World.debugf] at hc
  rw [hc]
  rfl

theorem call_wraps_remote_error_witness :
    (LightningRpc.call (scripted "/run/lightning-rpc" (fun _ _ => Answer.error (-32601) "unknown" none))
        (NewLightningRpc "/run/lightning-rpc") "stop" (Request.params []) ({} : Empty) World.start).err
      = some (Err.withMessage (Err.remote (-32601) "unknown" none) ("error calling " ++ "stop")) :=
  call_wraps_remote_error (scripted "/run/lightning-rpc" (fun _ _ => Answer.error (-32601) "unknown" none))
    (NewLightningRpc "/run/lightning-rpc") "stop" (Request.params []) ({} : Empty) World.start 7
    (Err.remote (-32601) "unknown" none) (by simp [scripted, NewLightningRpc])
    (by simp [clientCall, scripted, deliver])

/-- C3: every invocation of a public method on `NewLightningRpc p` dials network
"unix" at exactly `p`; when the dial succeeds it sends its request on the
connection that dial opened and closes that connection, whether or not the
request succeeded; it leaves the set of open connections as it found it; and
a second invocation on the same value dials again and uses its own
connection. -/
theorem connection_per_call {σ : Type} (T : Transport σ) (p : String) (op op2 : Op) (w : World σ)
    (conns : List Conn) :
    (op.run T (NewLightningRpc p) w).world.trace
      = w.trace ++ exchange p op.wireName op.wireParams (T.dial "unix" p w.env).1 ∧
    track conns (op.run T (NewLightningRpc p) w).world.trace = track conns w.trace ∧
    (op2.run T (op.run T (NewLightningRpc p) w).recv (op.run T (NewLightningRpc p) w).world).world.trace
      = w.trace ++ exchange p op.wireName op.wireParams (T.dial "unix" p w.env).1
          ++ exchange p op2.wireName op2.wireParams
              (T.dial "unix" p (op.run T (NewLightningRpc p) w).world.env).1 := by
  have h1 := run_trace T (NewLightningRpc p) op w
  have hp : (NewLightningRpc p).socketPath = p := rfl
  rw [hp] at h1
  refine ⟨h1, ?_, ?_⟩
  · rw [h1, track_append, track_exchange]
  · rw [run_recv, run_trace, h1, hp]

/-- C4: one invocation of a public method makes exactly one dial attempt, and
sends one request when that dial succeeds and none when it fails, whatever
the request yields. -/
theorem no_retries {σ : Type} (T : Transport σ) (lr : LightningRpc) (op : Op) (w : World σ) :
    (dialsOf (op.run T lr w).world.trace).length = (dialsOf w.trace).length + 1 ∧
    (requestsOf (op.run T lr w).world.trace).length
      = (requestsOf w.trace).length + (match (T.dial "unix" lr.socketPath w.env).1 with
          | Except.ok _ => 1
          | Except.error _ => 0) ∧
    (requestsOf (op.run T lr w).world.trace).length ≤ (requestsOf w.trace).length + 1 := by
  rw [run_trace, dialsOf_append, requestsOf_append]
  cases (T.dial "unix" lr.socketPath w.env).1 <;> simp [exchange, dialsOf, requestsOf]

/-- C5: every request a public method sends carries the wire method name the
catalog gives for that operation, for every argument, and operations with the
same wire name are the same operation. -/
theorem wire_method_names {σ : Type} (T : Transport σ) (lr : LightningRpc) (op op2 : Op)
    (w : World σ) :
    (requestsOf (op.run T lr w).world.trace).map (fun r => r.2.1)
      = (requestsOf w.trace).map (fun r => r.2.1)
          ++ (match (T.dial "unix" lr.socketPath w.env).1 with
              | Except.ok _ => [op.wireName]
              | Except.error _ => []) ∧
    (op.wireName = op2.wireName ↔ op.ordinal = op2.ordinal) := by
  constructor
  · rw [run_trace, requestsOf_append]
    cases (T.dial "unix" lr.socketPath w.env).1 <;> simp [exchange, requestsOf]
  · cases op <;> cases op2 <;> simp [Op.wireName, Op.ordinal]

/-- C6: every request a public method sends carries the parameters the catalog
gives for that operation: the arguments in declaration order as a positional
sequence, the empty sequence for `Stop`, an empty struct for the queries
without arguments. -/
theorem wire_parameters {σ : Type} (T : Transport σ) (lr : LightningRpc) (op : Op) (w : World σ) :
    (requestsOf (op.run T lr w).world.trace).map (fun r => r.2.2)
      = (requestsOf w.trace).map (fun r => r.2.2)
          ++ (match (T.dial "unix" lr.socketPath w.env).1 with
              | Except.ok _ => [op.wireParams]
              | Except.error _ => []) := by
  rw [run_trace, requestsOf_append]
  cases (T.dial "unix" lr.socketPath w.env).1 <;> simp [exchange, requestsOf]

theorem member_unknown {α : Type} (fields : List (Field α)) (acc : α × Option Err) (kv : String × Json)
    (h : findField fields kv.1 = none) : decodeMember fields acc kv = acc := by
  simp [decodeMember, h]

theorem member_id (id : String) (r : GetInfoResponse) :
    decodeMember GetInfoResponse.fields (r, none) ("id", Json.str id) = ({ r with Id := id }, none) := by
  simp [decodeMember, findField, GetInfoResponse.fields, decodeString, firstErr]

theorem member_port (port : Nat) (hp : port < 2 ^ uintSize) (r : GetInfoResponse) :
    decodeMember GetInfoResponse.fields (r, none) ("port", Json.nat port)
      = ({ r with Port := port }, none) := by
  have hp1 : port < 18446744073709551616 := by simp only [uintSize] at hp; omega
  simp [decodeMember, findField, GetInfoResponse.fields, decodeUint, uintSize, firstErr, hp1]

theorem member_testnet (testnet : Bool) (r : GetInfoResponse) :
    decodeMember GetInfoResponse.fields (r, none) ("testnet", Json.bool testnet)
      = ({ r with Testnet := testnet }, none) := by
  simp [decodeMember, findField, GetInfoResponse.fields, decodeBool, firstErr]

theorem member_version (version : String) (r : GetInfoResponse) :
    decodeMember GetInfoResponse.fields (r, none) ("version", Json.str version)
      = ({ r with Version := version }, none) := by
  simp [decodeMember, findField, GetInfoResponse.fields, decodeString, firstErr]

theorem member_blockheight (blockheight : Nat) (hb : blockheight < 2 ^ uintSize) (r : GetInfoResponse) :
    decodeMember GetInfoResponse.fields (r, none) ("blockheight", Json.nat blockheight)
      = ({ r with BlockHeight := blockheight }, none) := by
  have hb1 : blockheight < 18446744073709551616 := by simp only [uintSize] at hb; omega
  simp [decodeMember, findField, GetInfoResponse.fields, decodeUint, uintSize, firstErr, hb1]

theorem unknown_key (k : String) (h : findField GetInfoResponse.fields k = none) :
    (k == "id") = false ∧ (k == "port") = false ∧ (k == "testnet") = false ∧
      (k == "version") = false ∧ (k == "blockheight") = false := by
  refine ⟨?_, ?_, ?_, ?_, ?_⟩ <;>
  · rw [beq_eq_false_iff_ne]
    rintro rfl
    simp [findField, GetInfoResponse.fields] at h

theorem foldl_getInfo (id version : String) (port blockheight : Nat) (testnet : Bool)
    (hp : port < 2 ^ uintSize) (hb : blockheight < 2 ^ uintSize) (kvs : List (String × Json)) :
    ∀ r : GetInfoResponse,
    (∀ m ∈ kvs, m ∈ getInfoResult id port testnet version blockheight ∨
        findField GetInfoResponse.fields m.1 = none) →
    ∃ r1, kvs.foldl (decodeMember GetInfoResponse.fields) (r, none) = (r1, none) ∧
      (r1.Id = if kvs.any (fun kv => kv.1 == "id") then id else r.Id) ∧
      (r1.Port = if kvs.any (fun kv => kv.1 == "port") then port else r.Port) ∧
      (r1.Testnet = if kvs.any (fun kv => kv.1 == "testnet") then testnet else r.Testnet) ∧
      (r1.Version = if kvs.any (fun kv => kv.1 == "version") then version else r.Version) ∧
      (r1.BlockHeight
        = if kvs.any (fun kv => kv.1 == "blockheight") then blockheight else r.BlockHeight) := by
  induction kvs with
  | nil => intro r _; exact ⟨r, rfl, by simp⟩
  | cons m rest ih =>
    intro r h
    have hrest : ∀ m ∈ rest, m ∈ getInfoResult id port testnet version blockheight ∨
        findField GetInfoResponse.fields m.1 = none := fun x hx => h x (List.mem_cons_of_mem _ hx)
    rcases h m (List.mem_cons_self _ _) with hm | hm
    · simp only [getInfoResult, List.mem_cons, List.mem_singleton, List.not_mem_nil, or_false] at hm
      rcases hm with rfl | rfl | rfl | rfl | rfl
      · obtain ⟨r1, h1, h2⟩ := ih _ hrest
        rw [List.foldl_cons, member_id]
        refine ⟨r1, h1, ?_⟩
        simpa [List.any_cons] using h2
      · obtain ⟨r1, h1, h2⟩ := ih _ hrest
        rw [List.foldl_cons, member_port port hp]
        refine ⟨r1, h1, ?_⟩
        simpa [List.any_cons] using h2
      · obtain ⟨r1, h1, h2⟩ := ih _ hrest
        rw [List.foldl_cons, member_testnet]
        refine ⟨r1, h1, ?_⟩
        simpa [List.any_cons] using h2
      · obtain ⟨r1, h1, h2⟩ := ih _ hrest
        rw [List.foldl_cons, member_version]
        refine ⟨r1, h1, ?_⟩
        simpa [List.any_cons] using h2
      · obtain ⟨r1, h1, h2⟩ := ih _ hrest
        rw [List.foldl_cons, member_blockheight blockheight hb]
        refine ⟨r1, h1, ?_⟩
        simpa [List.any_cons] using h2
    · rw [List.foldl_cons, member_unknown _ _ _ hm]
      obtain ⟨r1, h1, h2⟩ := ih r hrest
      refine ⟨r1, h1, ?_⟩
      obtain ⟨k1, k2, k3, k4, k5⟩ := unknown_key m.1 hm
      simp only [List.any_cons, k1, k2, k3, k4, k5, Bool.false_or]
      exact h2

theorem member_folded_id (s : String) (r : GetInfoResponse) :
    decodeMember GetInfoResponse.fields (r, none) ("ID", Json.str s) = ({ r with Id := s }, none) := by
  have h : equalFold "id" "ID" = true := by decide
  simp [decodeMember, findField, h, GetInfoResponse.fields, decodeString, firstErr]

/-- C7, as stated, fails: the dial succeeds and the request "getinfo" is answered
by a result object that carries the keys id, port, testnet, version and
blockheight with the values "03ab..", 9735, false, "0.1", 500000, followed by
a member "ID"; `GetInfo` returns a nil error, yet the field `Id` does not hold
the value of the key id: the key ID is decoded into the same field. -/
theorem getInfo_folded_key_overrides :
    (LightningRpc.GetInfo
        (scripted "/run/lightning-rpc" (fun _ _ => Answer.result
          (Json.obj (getInfoResult "03ab.." 9735 false "0.1" 500000 ++ [("ID", Json.str "other")]))))
        (NewLightningRpc "/run/lightning-rpc") World.start).err = none ∧
    (LightningRpc.GetInfo
        (scripted "/run/lightning-rpc" (fun _ _ => Answer.result
          (Json.obj (getInfoResult "03ab.." 9735 false "0.1" 500000 ++ [("ID", Json.str "other")]))))
        (NewLightningRpc "/run/lightning-rpc") World.start).val
      = { Id := "other", Port := 9735, Testnet := false, Version := "0.1", BlockHeight := 500000 } ∧
    (LightningRpc.GetInfo
        (scripted "/run/lightning-rpc" (fun _ _ => Answer.result
          (Json.obj (getInfoResult "03ab.." 9735 false "0.1" 500000 ++ [("ID", Json.str "other")]))))
        (NewLightningRpc "/run/lightning-rpc") World.start).val.Id ≠ "03ab.." := by
  have hu : Unmarshal.unmarshal
      (Json.obj (getInfoResult "03ab.." 9735 false "0.1" 500000 ++ [("ID", Json.str "other")]))
      ({} : GetInfoResponse)
      = (⟨"other", 9735, false, "0.1", 500000⟩, none) := by
    show List.foldl (decodeMember GetInfoResponse.fields) (({} : GetInfoResponse), none) _ = _
    simp only [getInfoResult, List.cons_append, List.nil_append, List.foldl_cons, List.foldl_nil,
      member_id, member_port 9735 (by norm_num [uintSize]), member_testnet, member_version,
      member_blockheight 500000 (by norm_num [uintSize]), member_folded_id]
  have h := call_dial_ok (scripted "/run/lightning-rpc" (fun _ _ => Answer.result
      (Json.obj (getInfoResult "03ab.." 9735 false "0.1" 500000 ++ [("ID", Json.str "other")]))))
    (NewLightningRpc "/run/lightning-rpc") "getinfo" Request.emptyStruct ({} : GetInfoResponse)
    World.start 7 (by simp [scripted, NewLightningRpc])
  simp only [scripted, deliver, hu, Option.map_none, errorsWrap] at h
  have hv : (LightningRpc.GetInfo
        (scripted "/run/lightning-rpc" (fun _ _ => Answer.result
          (Json.obj (getInfoResult "03ab.." 9735 false "0.1" 500000 ++ [("ID", Json.str "other")]))))
        (NewLightningRpc "/run/lightning-rpc") World.start).val
      = ⟨"other", 9735, false, "0.1", 500000⟩ := h.1
  refine ⟨h.2, hv, ?_⟩
  rw [hv]
  decide

/-- C7, amended: when the dial succeeds and the request "getinfo" is answered by a
result object whose members are the five pairs under the keys id, port,
testnet, version and blockheight, in any order, and otherwise only members
whose keys match no field of the struct, not even up to letter case (id and
version strings, testnet a boolean, port and blockheight integer literals
without sign in the range of a Go `uint`), `GetInfo` returns a nil error and a
`GetInfoResponse` holding those five values. -/
theorem getInfo_decodes {σ : Type} (T : Transport σ) (lr : LightningRpc) (w : World σ) (c : Conn)
    (id version : String) (port blockheight : Nat) (testnet : Bool) (kvs : List (String × Json))
    (hd : (T.dial "unix" lr.socketPath w.env).1 = Except.ok c)
    (hr : (T.roundTrip c "getinfo" Request.emptyStruct (T.dial "unix" lr.socketPath w.env).2).1
      = Answer.result (Json.obj kvs))
    (hall : ∀ m ∈ getInfoResult id port testnet version blockheight, m ∈ kvs)
    (hrest : ∀ m ∈ kvs, m ∈ getInfoResult id port testnet version blockheight ∨
      findField GetInfoResponse.fields m.1 = none)
    (hp : port < 2 ^ uintSize) (hb : blockheight < 2 ^ uintSize) :
    (lr.GetInfo T w).err = none ∧
    (lr.GetInfo T w).val
      = { Id := id, Port := port, Testnet := testnet, Version := version, BlockHeight := blockheight } := by
  have h := call_dial_ok T lr "getinfo" Request.emptyStruct ({} : GetInfoResponse) w c hd
  rw [hr] at h
  obtain ⟨r1, hf, h1, h2, h3, h4, h5⟩ :=
    foldl_getInfo id version port blockheight testnet hp hb kvs {} hrest
  have a1 : kvs.any (fun kv => kv.1 == "id") = true :=
    List.any_eq_true.mpr ⟨_, hall ("id", Json.str id) (by simp [getInfoResult]), by simp⟩
  have a2 : kvs.any (fun kv => kv.1 == "port") = true :=
    List.any_eq_true.mpr ⟨_, hall ("port", Json.nat port) (by simp [getInfoResult]), by simp⟩
  have a3 : kvs.any (fun kv => kv.1 == "testnet") = true :=
    List.any_eq_true.mpr ⟨_, hall ("testnet", Json.bool testnet) (by simp [getInfoResult]), by simp⟩
  have a4 : kvs.any (fun kv => kv.1 == "version") = true :=
    List.any_eq_true.mpr ⟨_, hall ("version", Json.str version) (by simp [getInfoResult]), by simp⟩
  have a5 : kvs.any (fun kv => kv.1 == "blockheight") = true :=
    List.any_eq_true.mpr ⟨_, hall ("blockheight", Json.nat blockheight) (by simp [getInfoResult]), by simp⟩
  rw [a1] at h1
  rw [a2] at h2
  rw [a3] at h3
  rw [a4] at h4
  rw [a5] at h5
  have hu : Unmarshal.unmarshal (Json.obj kvs) ({} : GetInfoResponse) = (r1, none) := hf
  simp only [deliver, hu, Option.map_none, errorsWrap] at h
  have hr1 : r1 = ⟨id, port, testnet, version, blockheight⟩ := by
    cases r1
    simp_all
  unfold LightningRpc.GetInfo
  exact ⟨h.2, h.1.trans hr1⟩

theorem getInfo_decodes_witness :
    (LightningRpc.GetInfo
        (scripted "/run/lightning-rpc" (fun _ _ => Answer.result
          (Json.obj (getInfoResult "03ab.." 9735 false "0.1" 500000))))
        (NewLightningRpc "/run/lightning-rpc") World.start).err = none ∧
    (LightningRpc.GetInfo
        (scripted "/run/lightning-rpc" (fun _ _ => Answer.result
          (Json.obj (getInfoResult "03ab.." 9735 false "0.1" 500000))))
        (NewLightningRpc "/run/lightning-rpc") World.start).val
      = { Id := "03ab..", Port := 9735, Testnet := false, Version := "0.1", BlockHeight := 500000 } :=
  getInfo_decodes _ (NewLightningRpc "/run/lightning-rpc") World.start 7 "03ab.." "0.1" 9735 500000 false
    (getInfoResult "03ab.." 9735 false "0.1" 500000)
    (by simp [scripted, NewLightningRpc]) (by simp [scripted]) (fun _ hm => hm) (fun _ hm => Or.inl hm)
    (by norm_num [uintSize]) (by norm_num [uintSize])

/-- C8, as stated, fails: for destination "03cd..", amount 100000, risk 1.0 and the
error object (-1, "no route found"), the error `GetRoute` returns is not the
remote error itself. -/
theorem getRoute_error_not_remote :
    (LightningRpc.GetRoute
        (scripted "/run/lightning-rpc" (fun _ _ => Answer.error (-1) "no route found" none))
        (NewLightningRpc "/run/lightning-rpc") "03cd.." 100000 ⟨0x3F800000⟩ World.start).err
      ≠ some (Err.remote (-1) "no route found" none) := by
  unfold LightningRpc.GetRoute
  simp only []
  rw [(call_dial_ok _ _ _ _ _ _ 7 (by simp [scripted, NewLightningRpc])).2]
  simp [scripted, deliver, errorsWrap]

/-- C8, amended: when the dial succeeds and the daemon answers the "getroute"
request with the error object (code, message), with or without data,
`GetRoute` returns the remote error with that code and message annotated by
`errors.Wrap` with "error calling getroute", together with the zero `Route`,
which has no hops. -/
theorem getRoute_remote_error {σ : Type} (T : Transport σ) (lr : LightningRpc) (w : World σ)
    (c : Conn) (destination : String) (amount : Nat) (riskfactor : GoFloat32) (code : Int)
    (message : String) (data : Option Json)
    (hd : (T.dial "unix" lr.socketPath w.env).1 = Except.ok c)
    (hr : (T.roundTrip c "getroute"
            (Request.params [Arg.string destination, Arg.uint64 amount, Arg.float32 riskfactor])
            (T.dial "unix" lr.socketPath w.env).2).1
      = Answer.error code message data) :
    (lr.GetRoute T destination amount riskfactor w).err
      = some (Err.withMessage (Err.remote code message data) "error calling getroute") ∧
    (lr.GetRoute T destination amount riskfactor w).val = ({} : Route) ∧
    (lr.GetRoute T destination amount riskfactor w).val.Hops.elems = [] := by
  have h := call_dial_ok T lr "getroute"
    (Request.params [Arg.string destination, Arg.uint64 amount, Arg.float32 riskfactor])
    ({} : Route) w c hd
  rw [hr] at h
  simp only [deliver, errorsWrap] at h
  unfold LightningRpc.GetRoute
  simp only [List.nil_append, List.singleton_append, List.cons_append]
  refine ⟨?_, h.1, ?_⟩
  · rw [h.2]
    rfl
  · rw [h.1]

theorem getRoute_remote_error_witness :
    (LightningRpc.GetRoute
        (scripted "/run/lightning-rpc" (fun _ _ => Answer.error (-1) "no route found" none))
        (NewLightningRpc "/run/lightning-rpc") "03cd.." 100000 ⟨0x3F800000⟩ World.start).err
      = some (Err.withMessage (Err.remote (-1) "no route found" none) "error calling getroute") ∧
    (LightningRpc.GetRoute
        (scripted "/run/lightning-rpc" (fun _ _ => Answer.error (-1) "no route found" none))
        (NewLightningRpc "/run/lightning-rpc") "03cd.." 100000 ⟨0x3F800000⟩ World.start).val
      = ({} : Route) ∧
    (LightningRpc.GetRoute
        (scripted "/run/lightning-rpc" (fun _ _ => Answer.error (-1) "no route found" none))
        (NewLightningRpc "/run/lightning-rpc") "03cd.." 100000 ⟨0x3F800000⟩ World.start).val.Hops.elems
      = [] :=
  getRoute_remote_error _ (NewLightningRpc "/run/lightning-rpc") World.start 7 "03cd.." 100000
    ⟨0x3F800000⟩ (-1) "no route found" none (by simp [scripted, NewLightningRpc]) (by simp [scripted])

/-- C9: a call leaves the receiver as it was (for a value built by
`NewLightningRpc`, the same socket path and a `conn` that is still nil); what
a call returns and does to the world depends on the receiver only through
its socket path; and running a method on the receiver that an earlier call
left behind is the same as running it on the receiver before that call. -/
theorem no_local_state {σ : Type} (T : Transport σ) (lr : LightningRpc) (op op2 : Op)
    (w w2 : World σ) (p : String) (c1 c2 : Option Conn) :
    (op.run T lr w).recv = lr ∧
    (op.run T (NewLightningRpc p) w).recv.socketPath = p ∧
    (op.run T (NewLightningRpc p) w).recv.conn = none ∧
    (op.run T ⟨p, c1⟩ w).val = (op.run T ⟨p, c2⟩ w).val ∧
    (op.run T ⟨p, c1⟩ w).err = (op.run T ⟨p, c2⟩ w).err ∧
    (op.run T ⟨p, c1⟩ w).world = (op.run T ⟨p, c2⟩ w).world ∧
    op2.run T (op.run T lr w).recv w2 = op2.run T lr w2 := by
  refine ⟨run_recv T lr op w, ?_, ?_, (run_socketPath T p c1 c2 op w).1,
    (run_socketPath T p c1 c2 op w).2.1, (run_socketPath T p c1 c2 op w).2.2, ?_⟩
  · rw [run_recv]
    rfl
  · rw [run_recv]
    rfl
  · rw [run_recv]

/-- C10: when the dial fails with `d`, a public method adds the failed dial and
nothing else to the trace (no request, no close), returns `d` itself, not
annotated, and returns the zero value of its response type. -/
theorem dial_failure_path {σ : Type} (T : Transport σ) (lr : LightningRpc) (op : Op) (w : World σ)
    (d : Err) (h : (T.dial "unix" lr.socketPath w.env).1 = Except.error d) :
    (op.run T lr w).world.trace = w.trace ++ [Event.dial "unix" lr.socketPath none] ∧
    requestsOf (op.run T lr w).world.trace = requestsOf w.trace ∧
    closesOf (op.run T lr w).world.trace = closesOf w.trace ∧
    (op.run T lr w).err = some d ∧
    (op.run T lr w).val = op.zero := by
  have ht := run_trace T lr op w
  rw [h] at ht
  simp only [exchange] at ht
  refine ⟨ht, ?_, ?_, (run_dial_error T lr op w d h).2, (run_dial_error T lr op w d h).1⟩
  · rw [ht, requestsOf_append]
    simp [requestsOf]
  · rw [ht, closesOf_append]
    simp [closesOf]

theorem dial_failure_path_witness :
    ((Op.GetRoute "03cd.." 100000 ⟨0x3F800000⟩).run
        (scripted "/run/lightning-rpc" (fun _ _ => Answer.result (Json.obj [])))
        (NewLightningRpc "/run/missing") World.start).world.trace
      = World.start.trace ++ [Event.dial "unix" (NewLightningRpc "/run/missing").socketPath none] ∧
    requestsOf ((Op.GetRoute "03cd.." 100000 ⟨0x3F800000⟩).run
        (scripted "/run/lightning-rpc" (fun _ _ => Answer.result (Json.obj [])))
        (NewLightningRpc "/run/missing") World.start).world.trace = requestsOf World.start.trace ∧
    closesOf ((Op.GetRoute "03cd.." 100000 ⟨0x3F800000⟩).run
        (scripted "/run/lightning-rpc" (fun _ _ => Answer.result (Json.obj [])))
        (NewLightningRpc "/run/missing") World.start).world.trace = closesOf World.start.trace ∧
    ((Op.GetRoute "03cd.." 100000 ⟨0x3F800000⟩).run
        (scripted "/run/lightning-rpc" (fun _ _ => Answer.result (Json.obj [])))
        (NewLightningRpc "/run/missing") World.start).err = some (Err.dial "connection refused") ∧
    ((Op.GetRoute "03cd.." 100000 ⟨0x3F800000⟩).run
        (scripted "/run/lightning-rpc" (fun _ _ => Answer.result (Json.obj [])))
        (NewLightningRpc "/run/missing") World.start).val
      = (Op.GetRoute "03cd.." 100000 ⟨0x3F800000⟩).zero :=
  dial_failure_path (scripted "/run/lightning-rpc" (fun _ _ => Answer.result (Json.obj [])))
    (NewLightningRpc "/run/missing") (Op.GetRoute "03cd.." 100000 ⟨0x3F800000⟩) World.start
    (Err.dial "connection refused") (by simp [scripted, NewLightningRpc])

end lightningrpc
